import Mathlib

/-!
Verification of the fault-tolerant bulk screenshot orchestrator
(`task.service.ts` of the excel_screenshots service).

The TypeScript service is shallowly embedded here:

* `CaptureItem`, `createQueue`, `handleError`, `validateResponse`,
  `checkCircuitBreaker`, `resetCircuitBreaker`, `updateCircuitBreaker` and
  `generateFilename` are direct translations of the private methods of
  `TaskService` with the same names.
* Effectful puppeteer / filesystem / S3 calls are resolved by an explicit
  environment (`AttemptEnv`, `StepEnv`, `ProcessEnv`): for every iteration the
  environment decides whether `browser.newPage()` succeeds, what `page.goto`
  returns (a response descriptor, possibly `null`, or a thrown navigation
  error), and whether `page.screenshot` succeeds.  The boolean `fatal` flags
  model the result of `isFatalError` on the thrown error's message.
* `Date.now()` is modelled by a natural-number clock supplied per iteration.
* JavaScript strings are modelled as `List Char`; the template literal
  `${n}` for a non-negative integer is modelled by `jsNatToString`.
* The `while` loop of `createScreenshots` is `stepLoop` (one iteration)
  iterated by the fuel-indexed `runLoop`; each iteration also emits a trace of
  resource events (page opened / closed, navigation, capture, browser restart,
  circuit-breaker block) mirroring the order of the corresponding calls.
* `processFile` mirrors the whole job: create the record as `processing`,
  record `urlsCount`, run the capture loop, `createZip`, `uploadToS3`, mark
  `completed` with the archive key, remove the temp dir; any thrown error is
  caught and the record is marked `failed`.
-/

/-- One unit of work from `createQueue`: the queue objects
`{ url, attempts, timeout }` of `task.service.ts`. -/
structure CaptureItem where
  url : String
  attempts : Nat
  timeout : Nat
  deriving DecidableEq, Repr

/-- Models `createQueue(urls, initialTimeout)`: each validated URL becomes an
item with `attempts = 0` and the initial navigation timeout. -/
def createQueue (urls : List String) (initialTimeout : Nat) : List CaptureItem :=
  urls.map fun url => { url := url, attempts := 0, timeout := initialTimeout }

/-- The instance field `circuitBreakerState` of `TaskService`. -/
structure CircuitBreakerState where
  isOpen : Bool
  lastFailure : Nat
  resetTimeout : Nat
  failureCount : Nat
  deriving DecidableEq, Repr

/-- The initial value of `circuitBreakerState` in `TaskService`. -/
def initialBreaker : CircuitBreakerState :=
  { isOpen := false, lastFailure := 0, resetTimeout := 60000, failureCount := 0 }

/-- Models `checkCircuitBreaker()`: returns whether the dequeue must be
blocked, together with the (possibly lazily closed) breaker state.  `now`
stands for `Date.now()`. -/
def checkCircuitBreaker (now : Nat) (s : CircuitBreakerState) :
    Bool × CircuitBreakerState :=
  if s.isOpen then
    if now - s.lastFailure > s.resetTimeout then
      (false, { s with isOpen := false, failureCount := 0 })
    else
      (true, s)
  else
    (false, s)

/-- Models `resetCircuitBreaker()`: called on every successful capture. -/
def resetCircuitBreaker (s : CircuitBreakerState) : CircuitBreakerState :=
  { s with failureCount := 0 }

/-- Models `updateCircuitBreaker()`: called on every failed attempt.  `now`
stands for `Date.now()` at the moment the breaker trips. -/
def updateCircuitBreaker (now : Nat) (s : CircuitBreakerState) :
    CircuitBreakerState :=
  let s1 := { s with failureCount := s.failureCount + 1 }
  if s1.failureCount > 5 then
    { s1 with isOpen := true, lastFailure := now }
  else
    s1

/-- Models `validateResponse(response)`: `page.goto` may resolve to `null`
(modelled `none`) or to a response with a status code.  Throws (returns
`.error status`) exactly for a non-null response with status `>= 400`. -/
def validateResponse (response : Option Nat) : Except Nat Unit :=
  match response with
  | none => .ok ()
  | some status => if status ≥ 400 then .error status else .ok ()

/-- Models `handleError(error, item, queue, maxAttempts, timeoutMultiplier)`.
The first component is the item object after the call (it is mutated in
place in the source, so the caller can still observe it); the second is the
queue after the call.  Only the requeue branch increments `attempts` and
multiplies `timeout`; the abandon branch leaves both untouched and drops the
item. -/
def handleError (item : CaptureItem) (queue : List CaptureItem)
    (maxAttempts timeoutMultiplier : Nat) : CaptureItem × List CaptureItem :=
  if item.attempts < maxAttempts - 1 then
    let item1 := { item with
      attempts := item.attempts + 1,
      timeout := item.timeout * timeoutMultiplier }
    (item1, queue ++ [item1])
  else
    (item, queue)

/-- The constant `MAX_ATTEMPTS` of `createScreenshots`. -/
def MAX_ATTEMPTS : Nat := 3

/-- The constant `INITIAL_TIMEOUT` of `createScreenshots`. -/
def INITIAL_TIMEOUT : Nat := 30000

/-- The constant `TIMEOUT_MULTIPLIER` of `createScreenshots`. -/
def TIMEOUT_MULTIPLIER : Nat := 2

/-- Applies the failure handling of `handleError` to one item `k` times in a
row (the item is failed, requeued, and failed again, with no intervening
success), observing the mutated item each time. -/
def requeueIter (maxAttempts timeoutMultiplier : Nat) :
    Nat → CaptureItem → CaptureItem
  | 0, item => item
  | k + 1, item =>
      requeueIter maxAttempts timeoutMultiplier k
        (handleError item [] maxAttempts timeoutMultiplier).1

/-- Little-endian base-10 digit list of `n`; the fuel argument makes the
recursion structural (`fuel ≥ n` suffices). -/
def jsDigitsAux : Nat → Nat → List Nat
  | 0, _ => []
  | _ + 1, 0 => []
  | fuel + 1, n + 1 => ((n + 1) % 10) :: jsDigitsAux fuel ((n + 1) / 10)

/-- Little-endian base-10 digits of `n`. -/
def jsDigits (n : Nat) : List Nat := jsDigitsAux n n

/-- Reads a little-endian digit list back as a number (proof helper). -/
def fromDigits (l : List Nat) : Nat := l.foldr (fun d acc => d + 10 * acc) 0

/-- Models the JavaScript number-to-string conversion used by the template
literals of `generateFilename` for a non-negative integer. -/
def jsNatToString (n : Nat) : List Char :=
  if n = 0 then ['0'] else ((jsDigits n).map Nat.digitChar).reverse

/-- Models `generateFilename(url, index)`: `parseHost` stands for
`new URL(url).hostname` (the `catch` branch fires when it fails), `slug` for
`transliteration.slugify`, and `now` for `Date.now()`. -/
def generateFilename (slug : String → List Char)
    (parseHost : String → Option String) (url : String) (index : Nat)
    (now : Nat) : List Char :=
  match parseHost url with
  | some host =>
      jsNatToString index ++ ('_' :: (slug host ++ ('_' :: (jsNatToString now ++ ".png".toList))))
  | none =>
      jsNatToString index ++ ('_' :: (jsNatToString now ++ ".png".toList))

/-- The part of a filename before its first underscore. -/
def idxPart (l : List Char) : List Char := l.takeWhile (fun c => c != '_')

/-- Correct indexing of the `screenshots` list: the filename stored at
position `i` renders its 1-based position `i + 1` before its first
underscore (that is how `takeScreenshot` builds names: the index argument is
`screenshots.length` at push time, and `generateFilename` uses `index + 1`). -/
def IndexedShots (shots : List (List Char)) : Prop :=
  ∀ (i : Nat) (h : i < shots.length), idxPart shots[i] = jsNatToString (i + 1)

/-- Result of `page.goto`: either it resolves (possibly to `null`, modelled
`none`) or it throws; `fatal` records whether `isFatalError` holds of the
thrown error. -/
inductive NavResult where
  | ok (response : Option Nat)
  | err (fatal : Bool)
  deriving DecidableEq, Repr

/-- The environment's answers for one attempt on one URL: does
`browser.newPage()`/`configurePage` succeed (and if they throw, is the error
fatal), what does `page.goto` do, does `page.screenshot` succeed (and if it
throws, is the error fatal). -/
structure AttemptEnv where
  newPageOk : Bool
  newPageFatal : Bool
  nav : NavResult
  shotOk : Bool
  shotFatal : Bool
  deriving DecidableEq, Repr

/-- The environment for one loop iteration: the current `Date.now()` and the
world's response to an attempt on a given URL. -/
structure StepEnv where
  now : Nat
  attemptOf : String → AttemptEnv

/-- Resource and progress events emitted by one loop iteration, in the order
of the corresponding calls in `createScreenshots`. -/
inductive Event where
  | breakerBlocked
  | pageOpened
  | navigated (url : String)
  | captured (filename : List Char)
  | browserRestarted
  | pageClosed
  deriving DecidableEq, Repr

/-- The mutable state of the `createScreenshots` loop: the work queue, the
`screenshots` array (as bare filenames: `path.join(outputDir, f)` followed by
`path.basename` in `createZip` returns `f` again), the breaker, and the
`completed` column of the job record as last written. -/
structure LoopState where
  queue : List CaptureItem
  screenshots : List (List Char)
  breaker : CircuitBreakerState
  completed : Option Nat
  deriving DecidableEq, Repr

/-- Outcome of one loop iteration: either the circuit breaker aborted the run
(the `throw new Error('Service unavailable...')`) or the loop continues. -/
inductive StepResult where
  | aborted (st : LoopState) (events : List Event)
  | continued (st : LoopState) (events : List Event)
  deriving DecidableEq, Repr

/-- The state carried by a step result. -/
def StepResult.state : StepResult → LoopState
  | .aborted st _ => st
  | .continued st _ => st

/-- The events emitted by a step result. -/
def StepResult.events : StepResult → List Event
  | .aborted _ evs => evs
  | .continued _ evs => evs

/-- The `catch`/`finally` part of one loop iteration: `handleError` requeues
or abandons the item, `updateCircuitBreaker` counts the failure, a fatal
error restarts the browser (`restartBrowser` closes the old browser and with
it the still-open page), and the `finally` block closes the page if it was
opened and is not already closed. -/
def failStep (item : CaptureItem) (rest : List CaptureItem)
    (shots : List (List Char)) (completed : Option Nat)
    (b : CircuitBreakerState) (now : Nat) (fatal : Bool) (pageOpen : Bool)
    (evs : List Event) : StepResult :=
  .continued
    { queue := (handleError item rest MAX_ATTEMPTS TIMEOUT_MULTIPLIER).2,
      screenshots := shots,
      breaker := updateCircuitBreaker now b,
      completed := completed }
    (evs ++ (if fatal then [Event.browserRestarted] else []) ++
      (if pageOpen && !fatal then [Event.pageClosed] else []))

/-- One iteration of the `while (queue.length > 0)` loop of
`createScreenshots`.  Mirrors, in order: the circuit-breaker check (throwing
`Service unavailable` when blocked), `queue.shift()`, `browser.newPage()` and
`configurePage`, `navigatePage`, `validateResponse`, `takeScreenshot` and the
`screenshots.push`, the `completed` progress update, `resetCircuitBreaker`
and the reset of `item.timeout` (the item is discarded, so the latter has no
further effect), and on the error path `handleError`,
`updateCircuitBreaker`, the fatal-error browser restart, and the `finally`
page cleanup. -/
def stepLoop (slug : String → List Char) (parseHost : String → Option String)
    (env : StepEnv) (st : LoopState) : StepResult :=
  match st.queue with
  | [] => .continued st []
  | item :: rest =>
    match checkCircuitBreaker env.now st.breaker with
    | (blocked, b1) =>
      if blocked then
        .aborted { st with breaker := b1 } [Event.breakerBlocked]
      else
        let a := env.attemptOf item.url
        if a.newPageOk = false then
          failStep item rest st.screenshots st.completed b1 env.now
            a.newPageFatal false []
        else
          match a.nav with
          | .err fatal =>
              failStep item rest st.screenshots st.completed b1 env.now fatal
                true [Event.pageOpened, Event.navigated item.url]
          | .ok response =>
              match validateResponse response with
              | .error _ =>
                  failStep item rest st.screenshots st.completed b1 env.now
                    false true [Event.pageOpened, Event.navigated item.url]
              | .ok _ =>
                  if a.shotOk = false then
                    failStep item rest st.screenshots st.completed b1 env.now
                      a.shotFatal true [Event.pageOpened, Event.navigated item.url]
                  else
                    let filename := generateFilename slug parseHost item.url
                      (st.screenshots.length + 1) env.now
                    let shots := st.screenshots ++ [filename]
                    .continued
                      { queue := rest, screenshots := shots,
                        breaker := resetCircuitBreaker b1,
                        completed := some shots.length }
                      [Event.pageOpened, Event.navigated item.url,
                        Event.captured filename, Event.pageClosed]

/-- Result of running the loop to completion: the queue drained (`done`), the
breaker aborted the run (`aborted`), or the fuel ran out (`outOfFuel`, a
model artifact: the real loop was still running). -/
inductive RunResult where
  | done (st : LoopState) (trace : List Event)
  | aborted (st : LoopState) (trace : List Event)
  | outOfFuel (st : LoopState) (trace : List Event)
  deriving DecidableEq, Repr

/-- The final state of a run result. -/
def RunResult.state : RunResult → LoopState
  | .done st _ => st
  | .aborted st _ => st
  | .outOfFuel st _ => st

/-- The event trace of a run result. -/
def RunResult.trace : RunResult → List Event
  | .done _ tr => tr
  | .aborted _ tr => tr
  | .outOfFuel _ tr => tr

/-- Whether the run drained its queue normally. -/
def RunResult.isDone : RunResult → Bool
  | .done _ _ => true
  | _ => false

/-- Whether the run was aborted by the circuit breaker. -/
def RunResult.isAborted : RunResult → Bool
  | .aborted _ _ => true
  | _ => false

/-- The `while` loop of `createScreenshots`, iterated with explicit fuel;
`i` numbers the iterations so the environment can answer each one. -/
def runLoop (slug : String → List Char) (parseHost : String → Option String)
    (env : Nat → StepEnv) : Nat → Nat → LoopState → RunResult
  | 0, _, st => if st.queue.isEmpty then .done st [] else .outOfFuel st []
  | fuel + 1, i, st =>
    if st.queue.isEmpty then .done st []
    else
      match stepLoop slug parseHost (env i) st with
      | .aborted st1 evs => .aborted st1 evs
      | .continued st1 evs =>
        match runLoop slug parseHost env fuel (i + 1) st1 with
        | .done st2 tr => .done st2 (evs ++ tr)
        | .aborted st2 tr => .aborted st2 (evs ++ tr)
        | .outOfFuel st2 tr => .outOfFuel st2 (evs ++ tr)

/-- The loop state at the top of `createScreenshots`: the freshly created
queue, no screenshots, the service's breaker in its initial state, and the
`completed` column not yet written. -/
def initialLoopState (urls : List String) : LoopState :=
  { queue := createQueue urls INITIAL_TIMEOUT,
    screenshots := [],
    breaker := initialBreaker,
    completed := none }

/-- Net number of pages left open by a list of events: `pageOpened` opens
one, `pageClosed` closes it, and a browser restart closes every page of the
old browser. -/
def netOpenPages (evs : List Event) : Nat :=
  evs.foldl
    (fun n e =>
      match e with
      | Event.pageOpened => n + 1
      | Event.pageClosed => n - 1
      | Event.browserRestarted => 0
      | _ => n)
    0

/-- The filenames of the captures recorded in a trace, in order. -/
def capturedNames (evs : List Event) : List (List Char) :=
  evs.filterMap fun e =>
    match e with
    | Event.captured f => some f
    | _ => none

/-- The number of navigations (`page.goto` calls) recorded in a trace. -/
def countNavigations (evs : List Event) : Nat :=
  (evs.filter fun e =>
    match e with
    | Event.navigated _ => true
    | _ => false).length

/-- Models `createZip(files, outputDir)`: when the archive stream succeeds it
contains one entry per file, named `path.basename(file)` (the bare filename,
since `screenshots` stores `path.join(outputDir, filename)`); when the
archiver errors the promise rejects. -/
def createZip (files : List (List Char)) (zipOk : Bool) :
    Except Unit (List (List Char)) :=
  if zipOk then .ok files else .error ()

/-- Models `uploadToS3(filePath)`: on success it returns the generated
`${uuidv4()}_${Date.now()}.zip` key (chosen by the environment); on failure
the wrapped `Failed to upload to S3` error is thrown. -/
def uploadToS3 (uploadOk : Bool) (key : String) : Except Unit String :=
  if uploadOk then .ok key else .error ()

/-- The columns of the `tasks` record that `processFile` touches. -/
structure JobRecord where
  status : String
  urlsCount : Option Nat
  completed : Option Nat
  s3Key : Option String
  deriving DecidableEq, Repr

/-- The environment for a whole `processFile` run: the per-iteration loop
environment plus the outcomes of `mkdir`, the archiver, the S3 upload (with
its generated key) and the temp-dir removal. -/
structure ProcessEnv where
  stepEnv : Nat → StepEnv
  mkdirOk : Bool
  zipOk : Bool
  uploadOk : Bool
  uploadKey : String
  rmOk : Bool

/-- What a `processFile` run leaves behind: the job record, the entries of
the final archive if one was assembled, and whether `processFile` returned
normally (`false` means the caught error was rethrown). -/
structure ProcessResult where
  record : JobRecord
  archive : Option (List (List Char))
  ok : Bool
  deriving DecidableEq, Repr

/-- Models `processFile(file)` over an already validated URL list (spreadsheet
parsing is an external collaborator).  Mirrors: create the record as
`processing`, `mkdir` the temp dir, record `urlsCount`, run
`createScreenshots`, `createZip`, `uploadToS3`, update the record to
`completed` with the archive key, `rm` the temp dir; any error thrown on the
way is caught, the record is set to `failed`, and the error is rethrown.
Returns `none` when the loop fuel runs out (model artifact). -/
def processFile (slug : String → List Char)
    (parseHost : String → Option String) (urls : List String)
    (env : ProcessEnv) (fuel : Nat) : Option ProcessResult :=
  let rec0 : JobRecord :=
    { status := "processing", urlsCount := none, completed := none, s3Key := none }
  if env.mkdirOk = false then
    some { record := { rec0 with status := "failed" }, archive := none, ok := false }
  else
    let rec1 := { rec0 with urlsCount := some urls.length }
    match runLoop slug parseHost env.stepEnv fuel 0 (initialLoopState urls) with
    | .outOfFuel _ _ => none
    | .aborted st _ =>
        some { record := { rec1 with status := "failed", completed := st.completed },
               archive := none, ok := false }
    | .done st _ =>
        let rec2 := { rec1 with completed := st.completed }
        match createZip st.screenshots env.zipOk with
        | .error _ =>
            some { record := { rec2 with status := "failed" }, archive := none, ok := false }
        | .ok entries =>
            match uploadToS3 env.uploadOk env.uploadKey with
            | .error _ =>
                some { record := { rec2 with status := "failed" },
                       archive := some entries, ok := false }
            | .ok key =>
                let rec3 := { rec2 with status := "completed", s3Key := some key }
                if env.rmOk = false then
                  some { record := { rec3 with status := "failed" },
                         archive := some entries, ok := false }
                else
                  some { record := rec3, archive := some entries, ok := true }

/-- The `status` column left by a run (`"out-of-fuel"` is the model artifact
for a run that did not finish within the fuel). -/
def jobStatus (r : Option ProcessResult) : String :=
  match r with
  | some r => r.record.status
  | none => "out-of-fuel"

/-- The `urlsCount` column left by a run. -/
def jobUrlsCount (r : Option ProcessResult) : Option Nat :=
  match r with
  | some r => r.record.urlsCount
  | none => none

/-- The `completed` column left by a run. -/
def jobCompleted (r : Option ProcessResult) : Option Nat :=
  match r with
  | some r => r.record.completed
  | none => none

/-- The `s3Key` column left by a run. -/
def jobS3Key (r : Option ProcessResult) : Option String :=
  match r with
  | some r => r.record.s3Key
  | none => none

/-- The number of entries in the final archive, if one was assembled. -/
def archiveSize (r : Option ProcessResult) : Option Nat :=
  match r with
  | some r => r.archive.map List.length
  | none => none

/-- Whether `processFile` returned normally. -/
def returnedNormally (r : Option ProcessResult) : Bool :=
  match r with
  | some r => r.ok
  | none => false

/-- Hostname slug used by the concrete scenarios: keep the characters of the
hostname that are not underscores (`transliteration.slugify` never emits an
underscore). -/
def scenarioSlug : String → List Char := fun h => h.toList.filter (fun c => c != '_')

/-- Hostname parser used by the concrete scenarios. -/
def scenarioHost : String → Option String := fun _ => some "site.example"

/-- An attempt on which every effect succeeds and `page.goto` resolves to a
`null` response descriptor. -/
def allOkAttempt : AttemptEnv :=
  { newPageOk := true, newPageFatal := false, nav := .ok none,
    shotOk := true, shotFatal := false }

/-- An attempt whose navigation resolves to an HTTP 500 response. -/
def http500Attempt : AttemptEnv := { allOkAttempt with nav := .ok (some 500) }

/-- An attempt whose navigation throws a non-fatal error (e.g. a timeout). -/
def navFailAttempt : AttemptEnv := { allOkAttempt with nav := .err false }

/-- An attempt on which navigation succeeds but the per-item store of the
captured image (`page.screenshot` writing the file) throws a non-fatal
storage error. -/
def storageFailAttempt : AttemptEnv := { allOkAttempt with shotOk := false }

/-- The five URLs of the partial-success scenario. -/
def c1Urls : List String :=
  ["https://a1.test", "https://a2.test", "https://a3.test",
   "https://a4.test", "https://a5.test"]

/-- The partial-success environment: URLs 2 and 4 answer HTTP 500 on every
attempt, the others succeed first try; zip, upload and cleanup all succeed. -/
def c1Env : ProcessEnv :=
  { stepEnv := fun _ =>
      { now := 0,
        attemptOf := fun u =>
          if u = "https://a2.test" ∨ u = "https://a4.test" then http500Attempt
          else allOkAttempt },
    mkdirOk := true, zipOk := true, uploadOk := true,
    uploadKey := "3f2c_1700000000000.zip", rmOk := true }

/-- The seven URLs of the breaker-trip scenario. -/
def c2Urls : List String :=
  ["https://b1.test", "https://b2.test", "https://b3.test", "https://b4.test",
   "https://b5.test", "https://b6.test", "https://b7.test"]

/-- The breaker-trip environment: every navigation throws a non-fatal error,
and the clock never advances past the cooldown window. -/
def c2Env : Nat → StepEnv :=
  fun _ => { now := 0, attemptOf := fun _ => navFailAttempt }

/-- The breaker-trip run, cut off after `fuel` iterations. -/
def c2Run (fuel : Nat) : RunResult :=
  runLoop scenarioSlug scenarioHost c2Env fuel 0 (initialLoopState c2Urls)

/-- The single URL of the per-item storage-fault scenario. -/
def c7Urls : List String := ["https://c7.test"]

/-- The per-item storage-fault environment: on the first iteration the
capture's file write throws a storage error; the retry succeeds; zip, upload
and cleanup all succeed. -/
def c7Env : ProcessEnv :=
  { stepEnv := fun i =>
      { now := 0,
        attemptOf := fun _ => if i = 0 then storageFailAttempt else allOkAttempt },
    mkdirOk := true, zipOk := true, uploadOk := true,
    uploadKey := "9a1b_1700000000001.zip", rmOk := true }

/-- The all-success one-URL environment used by witnesses. -/
def wEnv : ProcessEnv :=
  { stepEnv := fun _ => { now := 0, attemptOf := fun _ => allOkAttempt },
    mkdirOk := true, zipOk := true, uploadOk := true, uploadKey := "w.zip",
    rmOk := true }

/-- The result of the all-success one-URL run (used by witnesses). -/
def wResult : ProcessResult :=
  { record := { status := "completed", urlsCount := some 1, completed := some 1,
                s3Key := some "w.zip" },
    archive := some ["1_site.example_0.png".toList], ok := true }

/-- Helper for C4: failing and requeuing an item `k` times in a row, starting
from `attempts = j`, yields `attempts = j + k` and multiplies the timeout by
`timeoutMultiplier ^ k`, as long as the attempt budget is not exhausted. -/
theorem requeueIter_spec (maxA mult : Nat) (k : Nat) :
    ∀ (j t : Nat) (url : String), j + k ≤ maxA - 1 →
      requeueIter maxA mult k { url := url, attempts := j, timeout := t }
        = { url := url, attempts := j + k, timeout := t * mult ^ k } := by
  induction k with
  | zero => intro j t url _; simp [requeueIter]
  | succ k ih =>
    intro j t url h
    have hj : j < maxA - 1 := by omega
    simp only [requeueIter, handleError, hj, if_pos]
    rw [ih (j + 1) (t * mult) url (by omega)]
    simp only [CaptureItem.mk.injEq, true_and]
    constructor
    · omega
    · ring

/-- C3 (counterexample): on the failure that exhausts the budget the
`attempts` counter is NOT incremented — with `maxAttempts = 3`, an item that
fails at `attempts = 2` keeps `attempts = 2` (not 3) and is dropped without
being requeued, so "a failure increments attempts" is false on the code. -/
theorem c3_final_failure_does_not_increment :
    (handleError { url := "https://a.test", attempts := 2, timeout := 120000 }
        [] 3 2).1.attempts = 2 ∧
    ¬ (handleError { url := "https://a.test", attempts := 2, timeout := 120000 }
        [] 3 2).1.attempts = 2 + 1 ∧
    (handleError { url := "https://a.test", attempts := 2, timeout := 120000 }
        [] 3 2).2 = [] := by
  decide

/-- C3 (amended): `handleError` increments `attempts` exactly when the item
still has budget (`attempts < maxAttempts - 1`), in which case the
incremented item is requeued at the tail; otherwise the item is left
untouched and permanently dropped from the queue; consequently every item in
the resulting queue either was already queued or carries
`attempts ≤ maxAttempts - 1`, so the counter never exceeds `maxAttempts`. -/
theorem c3_attempts_bounded (item : CaptureItem) (queue : List CaptureItem)
    (maxAttempts timeoutMultiplier : Nat) :
    (item.attempts < maxAttempts - 1 →
      (handleError item queue maxAttempts timeoutMultiplier).1.attempts
          = item.attempts + 1 ∧
      (handleError item queue maxAttempts timeoutMultiplier).2
          = queue ++ [(handleError item queue maxAttempts timeoutMultiplier).1]) ∧
    (¬ item.attempts < maxAttempts - 1 →
      (handleError item queue maxAttempts timeoutMultiplier).1 = item ∧
      (handleError item queue maxAttempts timeoutMultiplier).2 = queue) ∧
    (∀ x ∈ (handleError item queue maxAttempts timeoutMultiplier).2,
      x ∈ queue ∨ x.attempts ≤ maxAttempts - 1) := by
  refine ⟨?_, ?_, ?_⟩
  · intro h
    simp [handleError, h]
  · intro h
    simp [handleError, h]
  · intro x hx
    by_cases h : item.attempts < maxAttempts - 1
    · simp only [handleError, h, if_pos] at hx
      rcases List.mem_append.mp hx with hx | hx
      · exact Or.inl hx
      · simp only [List.mem_singleton] at hx
        subst hx
        refine Or.inr ?_
        simp only
        omega
    · simp only [handleError, h, if_neg, not_false_eq_true] at hx
      exact Or.inl hx

/-- C3 (witness): a first failure of a fresh item under `maxAttempts = 3`
does increment the counter. -/
theorem c3_witness :
    (handleError { url := "https://w.test", attempts := 0, timeout := 30000 }
        [] 3 2).1.attempts = 0 + 1 :=
  ((c3_attempts_bounded { url := "https://w.test", attempts := 0, timeout := 30000 }
      [] 3 2).1 (by decide)).1

/-- C4: an item enters the queue via `createQueue` with `attempts = 0` and
the initial timeout, and after `k` requeues (with no intervening success) its
timeout equals `initialTimeout * timeoutMultiplier ^ k` (and its counter
equals `k`). -/
theorem c4_timeout_after_k_requeues (urls : List String)
    (initialTimeout maxAttempts timeoutMultiplier k : Nat) (item : CaptureItem)
    (hitem : item ∈ createQueue urls initialTimeout)
    (hk : k ≤ maxAttempts - 1) :
    (requeueIter maxAttempts timeoutMultiplier k item).timeout
        = initialTimeout * timeoutMultiplier ^ k ∧
    (requeueIter maxAttempts timeoutMultiplier k item).attempts = k := by
  obtain ⟨url, _, rfl⟩ := List.mem_map.mp hitem
  rw [requeueIter_spec maxAttempts timeoutMultiplier k 0 initialTimeout url
    (by omega)]
  exact ⟨rfl, by simp⟩

/-- C4 (witness): with the run tunables of `createScreenshots`
(`maxAttempts = 3`, multiplier 2, initial timeout 30000), two requeues take
the timeout to `30000 * 2 ^ 2`. -/
theorem c4_witness :
    (requeueIter 3 2 2 { url := "https://w.test", attempts := 0, timeout := 30000 }).timeout
      = 30000 * 2 ^ 2 :=
  (c4_timeout_after_k_requeues ["https://w.test"] 30000 3 2 2
    { url := "https://w.test", attempts := 0, timeout := 30000 }
    (by decide) (by decide)).1

/-- C5: a successful capture (`resetCircuitBreaker`) zeroes the
consecutive-failure counter but never changes `isOpen` or `lastFailure`; an
open breaker read after the cooldown (`now > lastFailure + resetTimeout`)
lazily closes it, zeroes the counter and reports not-blocked; an open breaker
read at or before the cooldown boundary reports blocked and leaves the state
untouched, so the breaker stays open for at least `resetTimeout` after the
trip; and the failure that trips the breaker stamps `lastFailure` with the
current clock. -/
theorem c5_breaker_lazy_close :
    (∀ s : CircuitBreakerState,
        (resetCircuitBreaker s).failureCount = 0 ∧
        (resetCircuitBreaker s).isOpen = s.isOpen ∧
        (resetCircuitBreaker s).lastFailure = s.lastFailure) ∧
    (∀ (now : Nat) (s : CircuitBreakerState), s.isOpen = true →
        s.lastFailure + s.resetTimeout < now →
        checkCircuitBreaker now s
          = (false, { s with isOpen := false, failureCount := 0 })) ∧
    (∀ (now : Nat) (s : CircuitBreakerState), s.isOpen = true →
        now ≤ s.lastFailure + s.resetTimeout →
        checkCircuitBreaker now s = (true, s)) ∧
    (∀ (now : Nat) (s : CircuitBreakerState), s.isOpen = false →
        (updateCircuitBreaker now s).isOpen = true →
        (updateCircuitBreaker now s).lastFailure = now) := by
  refine ⟨fun s => ⟨rfl, rfl, rfl⟩, ?_, ?_, ?_⟩
  · intro now s hopen hlt
    have helapsed : now - s.lastFailure > s.resetTimeout := by omega
    simp [checkCircuitBreaker, hopen, helapsed]
  · intro now s hopen hle
    have helapsed : ¬ now - s.lastFailure > s.resetTimeout := by omega
    simp [checkCircuitBreaker, hopen, helapsed]
  · intro now s hclosed hopen
    unfold updateCircuitBreaker at hopen ⊢
    by_cases h : s.failureCount + 1 > 5
    · simp [h]
    · simp [h] at hopen
      exact absurd hopen (by simp [hclosed])

/-- C5 (witness): a breaker tripped at clock 100 with a 60000 cooldown is
blocked when read at clock 60100 (the boundary) and lazily closed when read
at clock 70000. -/
theorem c5_witness :
    checkCircuitBreaker 60100
        { isOpen := true, lastFailure := 100, resetTimeout := 60000, failureCount := 6 }
      = (true, { isOpen := true, lastFailure := 100, resetTimeout := 60000, failureCount := 6 }) ∧
    checkCircuitBreaker 70000
        { isOpen := true, lastFailure := 100, resetTimeout := 60000, failureCount := 6 }
      = (false, { isOpen := false, lastFailure := 100, resetTimeout := 60000, failureCount := 0 }) :=
  ⟨c5_breaker_lazy_close.2.2.1 60100
      { isOpen := true, lastFailure := 100, resetTimeout := 60000, failureCount := 6 }
      rfl (by norm_num),
   c5_breaker_lazy_close.2.1 70000
      { isOpen := true, lastFailure := 100, resetTimeout := 60000, failureCount := 6 }
      rfl (by norm_num)⟩

/-- C9: no loop iteration leaves its execution context open: whatever the
outcome of the attempt (success, recoverable failure, fatal failure, or a
breaker abort before a page is even opened), the events of the iteration net
to zero open pages, i.e. the page opened for the item — if one was opened and
is still open — is closed before the next dequeue. -/
theorem c9_page_closed_every_iteration (slug : String → List Char)
    (parseHost : String → Option String) (env : StepEnv) (st : LoopState) :
    netOpenPages (stepLoop slug parseHost env st).events = 0 := by
  rcases hq : st.queue with _ | ⟨item, rest⟩
  · simp [stepLoop, hq, StepResult.events, netOpenPages]
  · rcases hcb : checkCircuitBreaker env.now st.breaker with ⟨blocked, b1⟩
    rcases blocked
    · rcases ha : env.attemptOf item.url with ⟨npOk, npF, nav, shOk, shF⟩
      rcases npOk
      · rcases npF <;>
          simp [stepLoop, hq, hcb, ha, failStep, StepResult.events, netOpenPages]
      · rcases nav with response | fatal
        · rcases response with _ | status
          · rcases shOk
            · rcases shF <;>
                simp [stepLoop, hq, hcb, ha, validateResponse, failStep,
                  StepResult.events, netOpenPages]
            · simp [stepLoop, hq, hcb, ha, validateResponse, StepResult.events,
                netOpenPages]
          · by_cases h4 : status ≥ 400
            · simp [stepLoop, hq, hcb, ha, validateResponse, h4, failStep,
                StepResult.events, netOpenPages]
            · rcases shOk
              · rcases shF <;>
                  simp [stepLoop, hq, hcb, ha, validateResponse, h4, failStep,
                    StepResult.events, netOpenPages]
              · simp [stepLoop, hq, hcb, ha, validateResponse, h4,
                  StepResult.events, netOpenPages]
        · rcases fatal <;>
            simp [stepLoop, hq, hcb, ha, failStep, StepResult.events, netOpenPages]
    · simp [stepLoop, hq, hcb, StepResult.events, netOpenPages]

/-- C10: response validation never fails on a `null` response descriptor — it
fails exactly on a non-null response with status at least 400 — and an
attempt whose navigation resolves to `null` proceeds to the capture and, when
the capture succeeds, completes the iteration as a success (the screenshot is
stored, progress advances, the breaker streak resets). -/
theorem c10_null_response_not_a_failure (slug : String → List Char)
    (parseHost : String → Option String) (env : StepEnv) (st : LoopState)
    (item : CaptureItem) (rest : List CaptureItem) (npf sf : Bool)
    (hq : st.queue = item :: rest)
    (hcb : (checkCircuitBreaker env.now st.breaker).1 = false)
    (ha : env.attemptOf item.url
      = { newPageOk := true, newPageFatal := npf, nav := .ok none,
          shotOk := true, shotFatal := sf }) :
    validateResponse none = .ok () ∧
    (∀ status : Nat,
      (∃ e, validateResponse (some status) = .error e) ↔ 400 ≤ status) ∧
    stepLoop slug parseHost env st
      = .continued
          { queue := rest,
            screenshots := st.screenshots ++
              [generateFilename slug parseHost item.url
                (st.screenshots.length + 1) env.now],
            breaker := resetCircuitBreaker (checkCircuitBreaker env.now st.breaker).2,
            completed := some (st.screenshots.length + 1) }
          [Event.pageOpened, Event.navigated item.url,
            Event.captured (generateFilename slug parseHost item.url
              (st.screenshots.length + 1) env.now),
            Event.pageClosed] := by
  refine ⟨rfl, ?_, ?_⟩
  · intro status
    constructor
    · rintro ⟨e, he⟩
      by_contra hlt
      simp [validateResponse, Nat.lt_of_not_le, hlt] at he
    · intro h4
      exact ⟨status, by simp [validateResponse, h4]⟩
  · rcases hpair : checkCircuitBreaker env.now st.breaker with ⟨blocked, b2⟩
    rw [hpair] at hcb
    simp only at hcb
    subst hcb
    simp [stepLoop, hq, hpair, ha, validateResponse]

/-- C10 (witness): a fresh single-item run whose navigation resolves to a
`null` response passes validation. -/
theorem c10_witness : validateResponse none = .ok () :=
  (c10_null_response_not_a_failure scenarioSlug scenarioHost
    { now := 0, attemptOf := fun _ => allOkAttempt }
    (initialLoopState ["https://w.test"])
    { url := "https://w.test", attempts := 0, timeout := 30000 } [] false false
    rfl rfl rfl).1

/-- C1: on the five-URL run in which URLs 2 and 4 answer HTTP 500 on every
attempt and the rest succeed first try (`maxAttempts = 3`), `processFile`
returns normally, the final archive contains exactly 3 entries, and the job
record ends `completed` with `completed = 3` and `urlsCount = 5`. -/
theorem c1_partial_success_run :
    jobStatus (processFile scenarioSlug scenarioHost c1Urls c1Env 12) = "completed" ∧
    jobCompleted (processFile scenarioSlug scenarioHost c1Urls c1Env 12) = some 3 ∧
    jobUrlsCount (processFile scenarioSlug scenarioHost c1Urls c1Env 12) = some 5 ∧
    archiveSize (processFile scenarioSlug scenarioHost c1Urls c1Env 12) = some 3 ∧
    returnedNormally (processFile scenarioSlug scenarioHost c1Urls c1Env 12) = true := by
  decide

/-- C2: on the seven-URL run in which every navigation fails, the first five
failures leave the breaker closed, the sixth failure trips it open, and the
seventh dequeue check aborts the run with the service-unavailable fault
before any further navigation: exactly 6 navigations ever happen, the trace
ends with the breaker block, and no further item is processed (all 7 items
are still queued, none captured). -/
theorem c2_sixth_failure_trips_breaker :
    (c2Run 5).state.breaker.isOpen = false ∧
    (c2Run 5).state.breaker.failureCount = 5 ∧
    (c2Run 6).state.breaker.isOpen = true ∧
    (c2Run 6).state.breaker.failureCount = 6 ∧
    (c2Run 20).isAborted = true ∧
    countNavigations (c2Run 20).trace = 6 ∧
    (c2Run 20).trace.getLast? = some Event.breakerBlocked ∧
    (c2Run 20).state.screenshots = [] ∧
    (c2Run 20).state.queue.length = 7 := by
  decide

/-- C7 (counterexample): the claim that a per-item storage fault "propagates
out of the per-item loop and fails the whole job" is false on the code: on
the one-URL run whose first capture fails with a storage error while writing
the screenshot file, the fault is caught by the per-item handler, the item is
retried, and the job ends `completed` with the capture archived. -/
theorem c7_store_fault_does_not_fail_job :
    ((c7Env.stepEnv 0).attemptOf "https://c7.test").shotOk = false ∧
    jobStatus (processFile scenarioSlug scenarioHost c7Urls c7Env 5) = "completed" ∧
    returnedNormally (processFile scenarioSlug scenarioHost c7Urls c7Env 5) = true ∧
    archiveSize (processFile scenarioSlug scenarioHost c7Urls c7Env 5) = some 1 := by
  decide

/-- C7 (amended): a storage fault during the per-item store of a captured
image is caught by the per-item handler and treated exactly like a
recoverable navigation fault of the same fatality — the resulting loop state
(queue, screenshots, breaker, progress) is identical; only storage faults of
the bundling phase (archive assembly or its upload) escape the loop and fail
the whole job, leaving no archive key. -/
theorem c7_store_fault_retried_like_nav_fault :
    (∀ (slug : String → List Char) (parseHost : String → Option String)
        (e1 e2 : StepEnv) (st : LoopState) (item : CaptureItem)
        (rest : List CaptureItem) (fatal : Bool),
      st.queue = item :: rest →
      e1.now = e2.now →
      e1.attemptOf item.url
        = { newPageOk := true, newPageFatal := false, nav := .ok none,
            shotOk := false, shotFatal := fatal } →
      e2.attemptOf item.url
        = { newPageOk := true, newPageFatal := false, nav := .err fatal,
            shotOk := true, shotFatal := false } →
      (stepLoop slug parseHost e1 st).state = (stepLoop slug parseHost e2 st).state) ∧
    (∀ (slug : String → List Char) (parseHost : String → Option String)
        (urls : List String) (env : ProcessEnv) (fuel : Nat) (r : ProcessResult)
        (st : LoopState) (tr : List Event),
      runLoop slug parseHost env.stepEnv fuel 0 (initialLoopState urls) = .done st tr →
      env.zipOk = false →
      processFile slug parseHost urls env fuel = some r →
      r.record.status = "failed" ∧ r.record.s3Key = none ∧ r.ok = false) := by
  constructor
  · intro slug parseHost e1 e2 st item rest fatal hq hnow ha1 ha2
    rcases hcb : checkCircuitBreaker e1.now st.breaker with ⟨blocked, b1⟩
    have hcb2 : checkCircuitBreaker e2.now st.breaker = (blocked, b1) := by
      rw [← hnow]; exact hcb
    rcases blocked
    · simp [stepLoop, hq, hcb, hcb2, ha1, ha2, validateResponse, failStep,
        StepResult.state, hnow]
    · simp [stepLoop, hq, hcb, hcb2, StepResult.state]
  · intro slug parseHost urls env fuel r st tr hdone hzip hr
    by_cases hmk : env.mkdirOk = false
    · simp only [processFile, hmk, if_pos, Option.some.injEq] at hr
      subst hr
      exact ⟨rfl, rfl, rfl⟩
    · simp [processFile, hmk, hdone, hzip, createZip] at hr
      subst hr
      exact ⟨rfl, rfl, rfl⟩

/-- C7 (witness): for a fresh one-item queue, the state after a non-fatal
per-item storage fault equals the state after a non-fatal navigation
fault. -/
theorem c7_witness :
    (stepLoop scenarioSlug scenarioHost
        { now := 0, attemptOf := fun _ => storageFailAttempt }
        (initialLoopState ["https://w7.test"])).state
      = (stepLoop scenarioSlug scenarioHost
          { now := 0, attemptOf := fun _ => navFailAttempt }
          (initialLoopState ["https://w7.test"])).state :=
  c7_store_fault_retried_like_nav_fault.1 scenarioSlug scenarioHost
    { now := 0, attemptOf := fun _ => storageFailAttempt }
    { now := 0, attemptOf := fun _ => navFailAttempt }
    (initialLoopState ["https://w7.test"])
    { url := "https://w7.test", attempts := 0, timeout := 30000 } [] false
    rfl rfl rfl rfl

/-- C6: whenever `processFile` finishes, the job record carries exactly one
of the terminal statuses `completed` or `failed`; if the archive assembly or
its upload fails after the capture loop drained, the record is `failed` and
no archive key is recorded; and on a fully successful run the record is
`completed` with the archive key. -/
theorem c6_terminal_status (slug : String → List Char)
    (parseHost : String → Option String) (urls : List String)
    (env : ProcessEnv) (fuel : Nat) (r : ProcessResult)
    (hr : processFile slug parseHost urls env fuel = some r) :
    (r.record.status = "completed" ∨ r.record.status = "failed") ∧
    (∀ (st : LoopState) (tr : List Event),
      runLoop slug parseHost env.stepEnv fuel 0 (initialLoopState urls) = .done st tr →
      env.zipOk = false ∨ env.uploadOk = false →
      r.record.status = "failed" ∧ r.record.s3Key = none) ∧
    (∀ (st : LoopState) (tr : List Event),
      runLoop slug parseHost env.stepEnv fuel 0 (initialLoopState urls) = .done st tr →
      env.mkdirOk = true → env.zipOk = true → env.uploadOk = true →
      env.rmOk = true →
      r.record.status = "completed" ∧ r.record.s3Key = some env.uploadKey) := by
  cases hmk : env.mkdirOk with
  | false =>
    simp [processFile, hmk] at hr
    subst hr
    refine ⟨Or.inr rfl, fun st tr _ _ => ⟨rfl, rfl⟩, fun st tr _ hmk2 _ _ _ => ?_⟩
    simp at hmk2
  | true =>
    rcases hrl : runLoop slug parseHost env.stepEnv fuel 0 (initialLoopState urls)
      with ⟨st0, tr0⟩ | ⟨st0, tr0⟩ | ⟨st0, tr0⟩
    · cases hzip : env.zipOk with
      | false =>
        simp [processFile, hmk, hrl, hzip, createZip] at hr
        subst hr
        refine ⟨Or.inr rfl, fun st tr _ _ => ⟨rfl, rfl⟩,
          fun st tr _ _ hzip2 _ _ => ?_⟩
        simp at hzip2
      | true =>
        cases hup : env.uploadOk with
        | false =>
          simp [processFile, hmk, hrl, hzip, hup, createZip, uploadToS3] at hr
          subst hr
          refine ⟨Or.inr rfl, fun st tr _ _ => ⟨rfl, rfl⟩,
            fun st tr _ _ _ hup2 _ => ?_⟩
          simp at hup2
        | true =>
          cases hrm : env.rmOk with
          | false =>
            simp [processFile, hmk, hrl, hzip, hup, hrm, createZip, uploadToS3] at hr
            subst hr
            refine ⟨Or.inr rfl, fun st tr _ hor => ?_, fun st tr _ _ _ _ hrm2 => ?_⟩
            · rcases hor with h | h <;> simp at h
            · simp at hrm2
          | true =>
            simp [processFile, hmk, hrl, hzip, hup, hrm, createZip, uploadToS3] at hr
            subst hr
            refine ⟨Or.inl rfl, fun st tr _ hor => ?_, fun st tr _ _ _ _ _ => ⟨rfl, rfl⟩⟩
            rcases hor with h | h <;> simp at h
    · simp [processFile, hmk, hrl] at hr
      subst hr
      refine ⟨Or.inr rfl, fun st tr hdone _ => ?_, fun st tr hdone _ _ _ _ => ?_⟩
      · simp at hdone
      · simp at hdone
    · simp [processFile, hmk, hrl] at hr

/-- C6 (witness): a fully successful one-URL run ends in a terminal status. -/
theorem c6_witness :
    wResult.record.status = "completed" ∨ wResult.record.status = "failed" :=
  (c6_terminal_status scenarioSlug scenarioHost ["https://w.test"] wEnv 3 wResult
    (by decide)).1

/-- All entries of `jsDigitsAux` are base-10 digits. -/
theorem jsDigitsAux_lt (fuel : Nat) : ∀ n d, d ∈ jsDigitsAux fuel n → d < 10 := by
  induction fuel with
  | zero => intro n d hd; simp [jsDigitsAux] at hd
  | succ fuel ih =>
    intro n d hd
    rcases n with _ | n
    · simp [jsDigitsAux] at hd
    · simp only [jsDigitsAux, List.mem_cons] at hd
      rcases hd with rfl | hd
      · exact Nat.mod_lt _ (by norm_num)
      · exact ih _ _ hd

/-- `fromDigits` inverts `jsDigitsAux` when the fuel suffices. -/
theorem fromDigits_jsDigitsAux (fuel : Nat) :
    ∀ n, n ≤ fuel → fromDigits (jsDigitsAux fuel n) = n := by
  induction fuel with
  | zero =>
    intro n hn
    have : n = 0 := by omega
    subst this
    simp [jsDigitsAux, fromDigits]
  | succ fuel ih =>
    intro n hn
    rcases n with _ | n
    · simp [jsDigitsAux, fromDigits]
    · have hdiv : (n + 1) / 10 ≤ fuel := by
        have := Nat.div_lt_self (Nat.succ_pos n) (by norm_num : 1 < 10)
        omega
      simp only [jsDigitsAux, fromDigits, List.foldr_cons]
      have hrec : List.foldr (fun d acc => d + 10 * acc) 0 (jsDigitsAux fuel ((n + 1) / 10))
          = (n + 1) / 10 := ih _ hdiv
      rw [hrec]
      omega

/-- `fromDigits` inverts `jsDigits`. -/
theorem fromDigits_jsDigits (n : Nat) : fromDigits (jsDigits n) = n :=
  fromDigits_jsDigitsAux n n le_rfl

/-- All entries of `jsDigits` are base-10 digits. -/
theorem jsDigits_lt (n d : Nat) (hd : d ∈ jsDigits n) : d < 10 :=
  jsDigitsAux_lt n n d hd

/-- Digit characters are never underscores. -/
theorem digitChar_ne_underscore : ∀ d, d < 10 → Nat.digitChar d ≠ '_' := by
  decide

/-- Digit characters are injective on base-10 digits. -/
theorem digitChar_inj_lt :
    ∀ a, a < 10 → ∀ b, b < 10 → Nat.digitChar a = Nat.digitChar b → a = b := by
  decide

/-- The only base-10 digit rendered as the character `0` is zero. -/
theorem digitChar_eq_zero : ∀ d, d < 10 → Nat.digitChar d = '0' → d = 0 := by
  decide

/-- No character of a rendered number is an underscore. -/
theorem jsNatToString_no_underscore (n : Nat) :
    ∀ c ∈ jsNatToString n, (c != '_') = true := by
  intro c hc
  unfold jsNatToString at hc
  by_cases hn : n = 0
  · rw [if_pos hn] at hc
    simp only [List.mem_singleton] at hc
    subst hc
    decide
  · rw [if_neg hn] at hc
    rw [List.mem_reverse] at hc
    obtain ⟨d, hd, rfl⟩ := List.mem_map.mp hc
    have := digitChar_ne_underscore d (jsDigits_lt n d hd)
    simpa [bne_iff_ne] using this

/-- `map digitChar` is injective on digit lists. -/
theorem map_digitChar_inj :
    ∀ (l1 l2 : List Nat), (∀ d ∈ l1, d < 10) → (∀ d ∈ l2, d < 10) →
      l1.map Nat.digitChar = l2.map Nat.digitChar → l1 = l2 := by
  intro l1
  induction l1 with
  | nil =>
    intro l2 _ _ h
    rcases l2 with _ | ⟨b, l2⟩
    · rfl
    · simp at h
  | cons a l1 ih =>
    intro l2 h1 h2 h
    rcases l2 with _ | ⟨b, l2⟩
    · simp at h
    · simp only [List.map_cons, List.cons.injEq] at h
      have hab : a = b :=
        digitChar_inj_lt a (h1 a (by simp)) b (h2 b (by simp)) h.1
      subst hab
      rw [ih l2 (fun d hd => h1 d (by simp [hd])) (fun d hd => h2 d (by simp [hd]))
        h.2]

/-- The JavaScript decimal rendering of a natural number is injective. -/
theorem jsNatToString_inj (m n : Nat) (h : jsNatToString m = jsNatToString n) :
    m = n := by
  unfold jsNatToString at h
  by_cases hm : m = 0 <;> by_cases hn : n = 0
  · omega
  · exfalso
    rw [if_pos hm, if_neg hn] at h
    rcases hd : jsDigits n with _ | ⟨d, rest⟩
    · rw [hd] at h; simp at h
    · rw [hd] at h
      have hrev : (Nat.digitChar d :: rest.map Nat.digitChar).reverse = ['0'] := by
        simpa using h.symm
      have hsing : Nat.digitChar d :: rest.map Nat.digitChar = ['0'] := by
        have := congrArg List.reverse hrev
        simpa using this
      simp only [List.cons.injEq] at hsing
      have hrest : rest = [] := by
        rcases rest with _ | ⟨x, rest⟩
        · rfl
        · simp at hsing
      subst hrest
      have hd10 : d < 10 := jsDigits_lt n d (by rw [hd]; simp)
      have : d = 0 := digitChar_eq_zero d hd10 hsing.1
      subst this
      have := fromDigits_jsDigits n
      rw [hd] at this
      simp [fromDigits] at this
      omega
  · exfalso
    rw [if_neg hm, if_pos hn] at h
    rcases hd : jsDigits m with _ | ⟨d, rest⟩
    · rw [hd] at h; simp at h
    · rw [hd] at h
      have hsing : Nat.digitChar d :: rest.map Nat.digitChar = ['0'] := by
        have := congrArg List.reverse h
        simpa using this
      simp only [List.cons.injEq] at hsing
      have hrest : rest = [] := by
        rcases rest with _ | ⟨x, rest⟩
        · rfl
        · simp at hsing
      subst hrest
      have hd10 : d < 10 := jsDigits_lt m d (by rw [hd]; simp)
      have : d = 0 := digitChar_eq_zero d hd10 hsing.1
      subst this
      have := fromDigits_jsDigits m
      rw [hd] at this
      simp [fromDigits] at this
      omega
  · rw [if_neg hm, if_neg hn] at h
    have hmap : (jsDigits m).map Nat.digitChar = (jsDigits n).map Nat.digitChar :=
      List.reverse_injective h
    have : jsDigits m = jsDigits n :=
      map_digitChar_inj _ _ (fun d hd => jsDigits_lt m d hd)
        (fun d hd => jsDigits_lt n d hd) hmap
    have := congrArg fromDigits this
    rwa [fromDigits_jsDigits, fromDigits_jsDigits] at this

/-- Taking characters up to the first underscore recovers exactly the
underscore-free part in front of it. -/
theorem takeWhile_underscore_append (a b : List Char)
    (ha : ∀ c ∈ a, (c != '_') = true) :
    (a ++ '_' :: b).takeWhile (fun c => c != '_') = a := by
  induction a with
  | nil => simp [List.takeWhile_cons]
  | cons x a ih =>
    have hx := ha x (by simp)
    simp only [List.cons_append, List.takeWhile_cons, hx, if_pos]
    rw [ih (fun c hc => ha c (by simp [hc]))]

/-- The prefix before the first underscore of a generated filename is the
rendered index (in both the hostname and the fallback branch): the first
underscore of the name is the one that immediately follows the index. -/
theorem idxPart_generateFilename (slug : String → List Char)
    (parseHost : String → Option String) (url : String) (i now : Nat) :
    idxPart (generateFilename slug parseHost url i now) = jsNatToString i := by
  unfold generateFilename idxPart
  rcases hp : parseHost url with _ | host
  · exact takeWhile_underscore_append _ _ (jsNatToString_no_underscore i)
  · exact takeWhile_underscore_append _ _ (jsNatToString_no_underscore i)

/-- The empty screenshot list is correctly indexed. -/
theorem indexedShots_nil : IndexedShots [] := by
  intro i h
  simp at h

/-- Pushing a filename whose index part renders the next 1-based position
preserves correct indexing. -/
theorem indexedShots_push (shots : List (List Char)) (f : List Char)
    (hs : IndexedShots shots)
    (hf : idxPart f = jsNatToString (shots.length + 1)) :
    IndexedShots (shots ++ [f]) := by
  intro i h
  rcases Nat.lt_or_ge i shots.length with hi | hi
  · rw [List.getElem_append_left hi]
    exact hs i hi
  · have hil : i = shots.length := by
      simp only [List.length_append, List.length_singleton] at h
      omega
    subst hil
    rw [List.getElem_concat_length shots f shots.length rfl]
    exact hf

/-- Correctly indexed screenshot lists have pairwise distinct entries. -/
theorem indexedShots_nodup (shots : List (List Char)) (hs : IndexedShots shots) :
    shots.Nodup := by
  rw [List.nodup_iff_injective_get]
  intro a b hab
  rw [List.get_eq_getElem, List.get_eq_getElem] at hab
  have ha := hs a.1 a.2
  have hb := hs b.1 b.2
  rw [hab] at ha
  rw [hb] at ha
  have := jsNatToString_inj _ _ ha
  exact Fin.ext (by omega)

/-- Screenshot bookkeeping of one iteration: the state's `screenshots` after
the step are the previous ones followed by the filenames of the captures the
step recorded in its trace, and a step records either no capture or exactly
one, named with the next 1-based index. -/
theorem stepLoop_screenshots (slug : String → List Char)
    (parseHost : String → Option String) (env : StepEnv) (st : LoopState) :
    (stepLoop slug parseHost env st).state.screenshots
        = st.screenshots ++ capturedNames (stepLoop slug parseHost env st).events ∧
    (capturedNames (stepLoop slug parseHost env st).events = [] ∨
      ∃ url, capturedNames (stepLoop slug parseHost env st).events
        = [generateFilename slug parseHost url (st.screenshots.length + 1) env.now]) := by
  rcases hq : st.queue with _ | ⟨item, rest⟩
  · simp [stepLoop, hq, StepResult.events, StepResult.state, capturedNames]
  · rcases hcb : checkCircuitBreaker env.now st.breaker with ⟨blocked, b1⟩
    rcases blocked
    · rcases ha : env.attemptOf item.url with ⟨npOk, npF, nav, shOk, shF⟩
      rcases npOk
      · rcases npF <;>
          simp [stepLoop, hq, hcb, ha, failStep, StepResult.events,
            StepResult.state, capturedNames]
      · rcases nav with response | fatal
        · rcases response with _ | status
          · rcases shOk
            · rcases shF <;>
                simp [stepLoop, hq, hcb, ha, validateResponse, failStep,
                  StepResult.events, StepResult.state, capturedNames]
            · refine ⟨by simp [stepLoop, hq, hcb, ha, validateResponse,
                StepResult.events, StepResult.state, capturedNames], Or.inr ⟨item.url, ?_⟩⟩
              simp [stepLoop, hq, hcb, ha, validateResponse, StepResult.events,
                capturedNames]
          · by_cases h4 : status ≥ 400
            · simp [stepLoop, hq, hcb, ha, validateResponse, h4, failStep,
                StepResult.events, StepResult.state, capturedNames]
            · rcases shOk
              · rcases shF <;>
                  simp [stepLoop, hq, hcb, ha, validateResponse, h4, failStep,
                    StepResult.events, StepResult.state, capturedNames]
              · refine ⟨by simp [stepLoop, hq, hcb, ha, validateResponse, h4,
                  StepResult.events, StepResult.state, capturedNames], Or.inr ⟨item.url, ?_⟩⟩
                simp [stepLoop, hq, hcb, ha, validateResponse, h4,
                  StepResult.events, capturedNames]
        · rcases fatal <;>
            simp [stepLoop, hq, hcb, ha, failStep, StepResult.events,
              StepResult.state, capturedNames]
    · simp [stepLoop, hq, hcb, StepResult.events, StepResult.state, capturedNames]

/-- Screenshot bookkeeping of a drained run: the final `screenshots` are the
ones at entry followed by the captures of the whole trace, and correct
indexing is preserved from entry to exit. -/
theorem runLoop_done_screenshots (slug : String → List Char)
    (parseHost : String → Option String) (env : Nat → StepEnv) :
    ∀ (fuel i : Nat) (st st1 : LoopState) (tr : List Event),
      runLoop slug parseHost env fuel i st = .done st1 tr →
      st1.screenshots = st.screenshots ++ capturedNames tr ∧
      (IndexedShots st.screenshots → IndexedShots st1.screenshots) := by
  intro fuel
  induction fuel with
  | zero =>
    intro i st st1 tr h
    cases hq : st.queue.isEmpty <;> simp [runLoop, hq] at h
    obtain ⟨rfl, rfl⟩ := h
    exact ⟨by simp [capturedNames], fun hs => hs⟩
  | succ fuel ih =>
    intro i st st1 tr h
    cases hq : st.queue.isEmpty
    · simp only [runLoop, hq, Bool.false_eq_true, if_false] at h
      rcases hstep : stepLoop slug parseHost (env i) st with ⟨st2, evs⟩ | ⟨st2, evs⟩
      · rw [hstep] at h
        simp at h
      · rw [hstep] at h
        dsimp only at h
        rcases hrec : runLoop slug parseHost env fuel (i + 1) st2
          with ⟨st3, tr3⟩ | ⟨st3, tr3⟩ | ⟨st3, tr3⟩ <;> rw [hrec] at h <;> simp at h
        obtain ⟨rfl, rfl⟩ := h
        have hstep2 := stepLoop_screenshots slug parseHost (env i) st
        rw [hstep] at hstep2
        simp only [StepResult.state, StepResult.events] at hstep2
        have hrec2 := ih (i + 1) st2 _ _ hrec
        constructor
        · rw [hrec2.1, hstep2.1]
          simp [capturedNames, List.filterMap_append, List.append_assoc]
        · intro hs
          apply hrec2.2
          rcases hstep2.2 with hnil | ⟨url, hone⟩
          · rw [hstep2.1, hnil, List.append_nil]
            exact hs
          · rw [hstep2.1, hone]
            exact indexedShots_push _ _ hs
              (idxPart_generateFilename slug parseHost url
                (st.screenshots.length + 1) (env i).now)
    · simp only [runLoop, hq, if_true] at h
      obtain ⟨rfl, rfl⟩ := h
      exact ⟨by simp [capturedNames], fun hs => hs⟩

/-- C8: for every run that drains its queue, the final archive's entry list
is exactly the `screenshots` list (one entry per stored file, in order), the
`screenshots` list is exactly the list of filenames of the captures that
succeeded during the run, and its entries are pairwise distinct — each
filename begins with the strictly increasing 1-based capture index, which
pins its position. -/
theorem c8_archive_entries_exact (slug : String → List Char)
    (parseHost : String → Option String) (env : Nat → StepEnv)
    (urls : List String) (fuel : Nat) (st : LoopState) (tr : List Event)
    (hrun : runLoop slug parseHost env fuel 0 (initialLoopState urls)
      = .done st tr) :
    createZip st.screenshots true = .ok st.screenshots ∧
    st.screenshots = capturedNames tr ∧
    st.screenshots.Nodup := by
  have h := runLoop_done_screenshots slug parseHost env fuel 0
    (initialLoopState urls) st tr hrun
  refine ⟨rfl, ?_, ?_⟩
  · have h1 := h.1
    simpa [initialLoopState] using h1
  · exact indexedShots_nodup _ (h.2 indexedShots_nil)

/-- C8 (witness): the all-success one-URL run drains its queue and its
screenshot list has pairwise distinct entries. -/
theorem c8_witness :
    (runLoop scenarioSlug scenarioHost wEnv.stepEnv 3 0
        (initialLoopState ["https://w.test"])).state.screenshots.Nodup :=
  (c8_archive_entries_exact scenarioSlug scenarioHost wEnv.stepEnv
    ["https://w.test"] 3
    (runLoop scenarioSlug scenarioHost wEnv.stepEnv 3 0
        (initialLoopState ["https://w.test"])).state
    (runLoop scenarioSlug scenarioHost wEnv.stepEnv 3 0
        (initialLoopState ["https://w.test"])).trace
    (by decide)).2.2
